import Mathlib

/-!
Verification of the sessions article repository: a shallow embedding of the
demo Express/Fastify session handlers found under `src/`, together with
models of the session state manager design (locking strategy, optimistic
versioning, granular operation log, handle state machine) described by the
specification, whose implementation is not part of the source tree.
-/

namespace Sessions

/-- Update a function at one point (the way assigning `obj[key] = v` updates a
JS object viewed as a key-to-value mapping). -/
def fupdate {α β : Type} [DecidableEq α] (f : α → β) (a : α) (b : β) : α → β :=
  fun x => if x = a then b else f x

/-! ## Data model: carts, sessions, responses

A cart is a JS object mapping item names to numeric quantities; a key that is
absent maps to `none`.  A session object may or may not have a `cart`
property.  The JSON responses of the handlers carry a `shoppingCart` field. -/

abbrev Item := String

abbrev Cart := Item → Option Int

/-- The per-session state object (`req.session`): it may or may not carry a
`cart` property. -/
structure SessionData where
  cart : Option Cart

/-- An empty JS object `{}` used for `req.session.cart = {}`. -/
def emptyCart : Cart := fun _ => none

/-- A fresh session as express-session materialises it: no `cart` property. -/
def emptySession : SessionData := ⟨none⟩

/-- The JSON body `{ shoppingCart: ... }` sent by the handlers.  When
`req.session.cart` is undefined the field serialises as absent (`none`). -/
structure Response where
  shoppingCart : Option Cart

/-- JS truthiness default `q || 0` applied to an object property lookup:
an absent property is `undefined` (falsy), and the number `0` is falsy too,
so both default to `0`; any other number passes through. -/
def jsOrZero : Option Int → Int
  | none => 0
  | some q => if q = 0 then 0 else q

/-- The prior quantity of an item in a session state: 0 when the cart or the
key is absent, otherwise the stored quantity. -/
def priorQty (s : SessionData) (item : Item) : Int :=
  match s.cart with
  | none => 0
  | some c0 => (c0 item).getD 0

/-- The cart keys of a session state, as a lookup: `none` when the cart
itself is absent. -/
def cartLookup (s : SessionData) (j : Item) : Option Int :=
  match s.cart with
  | none => none
  | some c0 => c0 j

/-! ## The add-to-cart handler body

Embeds the body shared by `app.post('/add-to-cart/:item', ...)` in
`src/sessions/code/express-session-two-routes-only.js` (lines 17-27), the
non-delayed variant in `src/unnamed/part_000` and the fastify variant in
`src/unnamed/part_001`:

    const item = req.params.item;
    if (!req.session.cart) { req.session.cart = {}; }
    req.session.cart[item] = (req.session.cart[item] || 0) + 1;
    res.json({ shoppingCart: req.session.cart });
-/

/-- One isolated execution of the add-to-cart handler on session state `s`
with route parameter `item`; returns the updated session and the JSON
response. -/
def addToCart (s : SessionData) (item : Item) : SessionData × Response :=
  let cart0 : Cart := match s.cart with
    | none => emptyCart
    | some c => c
  let newCart : Cart := fupdate cart0 item (some (jsOrZero (cart0 item) + 1))
  (⟨some newCart⟩, ⟨some newCart⟩)

/-! ## The delayed add-to-cart handler of `src/unnamed/part_000`

    if (!req.session.cart) { req.session.cart = {}; }
    await delay(HANDLER_DELAY_MS);
    req.session.cart[item] = (req.session.cart[item] || 0) + 1;
    res.json({ shoppingCart: req.session.cart });

The `await` splits the handler into two phases; run in isolation, their
sequential composition is the handler's semantics. -/

/-- The code of the delayed handler before the `await`: ensure
`req.session.cart` exists. -/
def addToCartPhase1 (s : SessionData) : SessionData :=
  match s.cart with
  | none => ⟨some emptyCart⟩
  | some c => ⟨some c⟩

/-- The code of the delayed handler after the `await`: increment the item
quantity and respond. -/
def addToCartPhase2 (s : SessionData) (item : Item) : SessionData × Response :=
  let cart0 : Cart := match s.cart with
    | none => emptyCart
    | some c => c
  let newCart : Cart := fupdate cart0 item (some (jsOrZero (cart0 item) + 1))
  (⟨some newCart⟩, ⟨some newCart⟩)

/-- The delayed handler run as a single isolated request: phase 1, the
(state-irrelevant) delay, then phase 2. -/
def addToCartDelayed (s : SessionData) (item : Item) : SessionData × Response :=
  addToCartPhase2 (addToCartPhase1 s) item

/-! ## Store-level request semantics under express-session

The default store maps session IDs to saved session data.  With
`saveUninitialized: false` and `resave: false`, a request's session is loaded
at the start (fresh if absent) and written back at response time only if the
handler modified it. -/

abbrev SessionID := String

abbrev Store := SessionID → Option SessionData

/-- `POST /add-to-cart/:item` processed through the session middleware: load
the session (fresh if absent), run the handler, and — since the handler
always assigns to the session — save the modified session back. -/
def postAddToCart (store : Store) (sid : SessionID) (item : Item) :
    Store × Response :=
  let s := (store sid).getD emptySession
  let out := addToCart s item
  (fupdate store sid (some out.1), out.2)

/-- `GET /cart` processed through the session middleware: load the session
and respond with its cart.  The handler never assigns to the session, so
with `resave: false` and `saveUninitialized: false` nothing is written
back. -/
def getCart (store : Store) (sid : SessionID) : Store × Response :=
  let s := (store sid).getD emptySession
  (store, ⟨s.cart⟩)

/-! ## The `/no-sessions` route

`app.get('/no-sessions', ...)` is registered without the session middleware
(express variant) or outside the registration scope (fastify variant), so
`req.session` is `undefined` and the property access `req.session.cart`
throws a TypeError. -/

/-- JS runtime errors the embedded handlers can raise. -/
inductive JsError where
  | typeError
deriving DecidableEq

/-- The handler body `res.json({ shoppingCart: req.session.cart })` given the
request's `session` property: reading `.cart` off `undefined` throws. -/
def cartOfSession (session : Option SessionData) : Except JsError Response :=
  match session with
  | none => .error .typeError
  | some s => .ok ⟨s.cart⟩

/-- `GET /no-sessions`: no middleware ran, so the request reaches the handler
with `req.session` undefined; the store is never consulted or written. -/
def getNoSessions (store : Store) : Store × Except JsError Response :=
  (store, cartOfSession none)

/-! ## The locking strategy

Modelled from the spec: the Session State Manager's exclusive-locking
strategy (spec sections 4.1 and 4.2), which is described but not implemented
in `src/`.  Two request handlers run the scenario of spec section 8: each
acquires a ReadWrite handle on the same SessionID, reads the counter
`cart.mug`, increments it by one, and commits (which releases the lock).
Acquisition blocks while the per-SessionID lock is held by anyone. -/

/-- The joint state of the stored counter, the per-SessionID lock, and the
two handlers.  Each handler's program counter: 0 = about to acquire,
1 = about to read, 2 = about to write, 3 = about to commit/release,
4 = done.  `regA`/`regB` hold the value each handler read. -/
structure LockRun where
  lock : Option Bool
  stored : Int
  pcA : Nat
  regA : Int
  pcB : Nat
  regB : Int
deriving DecidableEq

/-- Initial state of the lost-update experiment: counter at 0, lock free,
both handlers about to acquire. -/
def lockInit : LockRun := ⟨none, 0, 0, 0, 0, 0⟩

/-- Modelled from the spec: one atomic step of one handler (`true` = A,
`false` = B) under the locking strategy.  `acquire(ReadWrite)` succeeds only
when the lock is free, otherwise the handler stays blocked; `commit` always
succeeds under this strategy and releases the lock. -/
def lockStep (st : LockRun) (w : Bool) : LockRun :=
  if w then
    match st.pcA, st.lock with
    | 0, none => { st with lock := some true, pcA := 1 }
    | 0, some _ => st
    | 1, _ => { st with regA := st.stored, pcA := 2 }
    | 2, _ => { st with stored := st.regA + 1, pcA := 3 }
    | 3, _ => { st with lock := none, pcA := 4 }
    | _, _ => st
  else
    match st.pcB, st.lock with
    | 0, none => { st with lock := some false, pcB := 1 }
    | 0, some _ => st
    | 1, _ => { st with regB := st.stored, pcB := 2 }
    | 2, _ => { st with stored := st.regB + 1, pcB := 3 }
    | 3, _ => { st with lock := none, pcB := 4 }
    | _, _ => st

/-- Run the two handlers under an arbitrary interleaving: the schedule lists
which handler takes the next atomic step. -/
def lockRun (sched : List Bool) : LockRun :=
  sched.foldl lockStep lockInit

/-- The inductive invariant of the locking run: program counters stay in
range, a handler between acquisition and release holds the lock (so the
critical sections are mutually exclusive), a handler about to write holds a
register equal to the stored value, and the stored value counts the handlers
that have completed their write. -/
def LockInv (st : LockRun) : Prop :=
  st.pcA ≤ 4 ∧ st.pcB ≤ 4 ∧
  (1 ≤ st.pcA ∧ st.pcA ≤ 3 → st.lock = some true) ∧
  (1 ≤ st.pcB ∧ st.pcB ≤ 3 → st.lock = some false) ∧
  (st.pcA = 2 → st.regA = st.stored) ∧
  (st.pcB = 2 → st.regB = st.stored) ∧
  st.stored = (if 3 ≤ st.pcA then 1 else 0) + (if 3 ≤ st.pcB then 1 else 0)

instance (st : LockRun) : Decidable (LockInv st) := by
  unfold LockInv
  infer_instance

/-! ## The optimistic strategy (Version Clock)

Modelled from the spec: Version Clock / optimistic commit (spec sections 3,
4.1 and 4.3), described but not implemented in `src/`.  The backend stores a
blob together with a Revision; `commitIfUnchanged` is an atomic
compare-and-swap on the Revision. -/

/-- A stored snapshot with its Revision under the optimistic strategy. -/
structure VersionedBlob where
  blob : SessionData
  rev : Nat

/-- The backend's store under the optimistic strategy. -/
abbrev VStore := SessionID → Option VersionedBlob

/-- Possible failure of an optimistic commit. -/
inductive CommitError where
  | conflictError
deriving DecidableEq

/-- Modelled from the spec: the first save of a SessionID stores the snapshot
with Revision 0. -/
def firstSave (store : VStore) (sid : SessionID) (blob : SessionData) : VStore :=
  fupdate store sid (some ⟨blob, 0⟩)

/-- Modelled from the spec: `commitIfUnchanged(sessionID, revision,
newSnapshot)` — an atomic compare-and-swap at the storage layer.  It succeeds
with the next Revision only when the stored Revision still equals the
reserved one; otherwise it returns `ConflictError` and performs no write. -/
def commitIfUnchanged (store : VStore) (sid : SessionID) (expected : Nat)
    (newBlob : SessionData) : VStore × Except CommitError Nat :=
  match store sid with
  | some vb =>
    if vb.rev = expected then
      (fupdate store sid (some ⟨newBlob, expected + 1⟩), .ok (expected + 1))
    else
      (store, .error .conflictError)
  | none => (store, .error .conflictError)

/-- The Revision held by the stored snapshot after the first save followed by
`n` successful commits: Revision 0, then each successful commit replaces
Revision `r` by `r + 1`. -/
def revisionAfter : Nat → Nat
  | 0 => 0
  | n + 1 => revisionAfter n + 1

/-! ## The Granular Operation Log

Modelled from the spec: the Granular Operation Log strategy (spec section
4.4), described but not implemented in `src/`.  Values stored at a path are
counters or sets; each operation is applied atomically at the storage layer,
and a malformed operation (wrong value kind at the path) is rejected with
`InvalidOperation` and has no partial effect. -/

/-- A value stored at one path of a session under the granular strategy:
absent, a counter, or a set of strings. -/
inductive GValue where
  | absentVal
  | counter (n : Int)
  | vset (s : Finset String)
deriving DecidableEq

/-- The per-session state seen by the granular strategy: a mapping from path
strings to stored values. -/
abbrev GSnap := String → GValue

/-- Failure of a granular apply. -/
inductive GError where
  | invalidOperation
deriving DecidableEq

/-- Modelled from the spec: a named, parameterized, self-describing mutation
— increment the counter at a path, or add a value to the set at a path. -/
inductive GranularOp where
  | increment (path : String) (n : Int)
  | addToSet (path : String) (v : String)
deriving DecidableEq

/-- Modelled from the spec: `apply(sessionID, operation)` against one
session's granular state.  Incrementing an absent counter starts it at 0;
adding to an absent set starts it empty; an operation aimed at a value of the
wrong kind fails with `InvalidOperation` and leaves the state untouched. -/
def gapply (snap : GSnap) : GranularOp → GSnap × Except GError GValue
  | .increment p n =>
    match snap p with
    | .absentVal => (fupdate snap p (.counter n), .ok (.counter n))
    | .counter m => (fupdate snap p (.counter (m + n)), .ok (.counter (m + n)))
    | .vset _ => (snap, .error .invalidOperation)
  | .addToSet p v =>
    match snap p with
    | .absentVal => (fupdate snap p (.vset {v}), .ok (.vset {v}))
    | .vset s => (fupdate snap p (.vset (insert v s)), .ok (.vset (insert v s)))
    | .counter _ => (snap, .error .invalidOperation)

/-- The state left by applying two operations in sequence. -/
def gapply2 (snap : GSnap) (op1 op2 : GranularOp) : GSnap :=
  (gapply (gapply snap op1).1 op2).1

/-- The fully absent granular session state. -/
def gempty : GSnap := fun _ => .absentVal

/-! ## The per-handle state machine

Modelled from the spec: the SessionHandle lifecycle (spec sections 3, 4.1 and
4.4): `Created → Acquired(ReadOnly|ReadWrite) → {Committed | Discarded |
Expired(LockLost)}`; a handle is closed by exactly one of commit and discard
(or expires when the watchdog breaks its lock), and terminal states are
final. -/

/-- Access mode of an acquired handle. -/
inductive Mode where
  | readOnly
  | readWrite
deriving DecidableEq

/-- The states of one SessionHandle. -/
inductive HandleState where
  | created
  | acquired (m : Mode)
  | committed
  | discarded
  | expired
deriving DecidableEq

/-- The operations that move a handle between states. -/
inductive HandleOp where
  | acquireOp (m : Mode)
  | commitOp
  | discardOp
  | expireOp
deriving DecidableEq

/-- Modelled from the spec: the handle state machine.  `acquire` is only
legal on a fresh handle; `commit` and `discard` close an acquired handle;
`expire` is the watchdog breaking the lock of an acquired handle.  Every
other combination is illegal (`none`). -/
def hstep : HandleState → HandleOp → Option HandleState
  | .created, .acquireOp m => some (.acquired m)
  | .acquired _, .commitOp => some .committed
  | .acquired _, .discardOp => some .discarded
  | .acquired _, .expireOp => some .expired
  | _, _ => none

/-- Run a sequence of handle operations; an illegal operation aborts the
run. -/
def hrun : HandleState → List HandleOp → Option HandleState
  | s, [] => some s
  | s, op :: ops =>
    match hstep s op with
    | none => none
    | some s2 => hrun s2 ops

/-- The terminal handle states. -/
def isTerminal : HandleState → Bool
  | .committed => true
  | .discarded => true
  | .expired => true
  | _ => false

/-! ## Helper lemmas -/

theorem fupdate_same {α β : Type} [DecidableEq α] (f : α → β) (a : α) (b : β) :
    fupdate f a b a = b := by
  simp [fupdate]

theorem fupdate_other {α β : Type} [DecidableEq α] (f : α → β) (a : α) (b : β)
    (x : α) (hx : x ≠ a) : fupdate f a b x = f x := by
  simp [fupdate, hx]

theorem fupdate_idem {α β : Type} [DecidableEq α] (f : α → β) (a : α) (b c : β) :
    fupdate (fupdate f a b) a c = fupdate f a c := by
  funext x
  by_cases hx : x = a <;> simp [fupdate, hx]

theorem jsOrZero_eq_getD (v : Option Int) : jsOrZero v = v.getD 0 := by
  cases v with
  | none => rfl
  | some q =>
    by_cases hq : q = 0 <;> simp [jsOrZero, hq]

theorem lockInv_init : LockInv lockInit := by
  decide

theorem lockInv_step (st : LockRun) (w : Bool) (h : LockInv st) :
    LockInv (lockStep st w) := by
  obtain ⟨h1, h2, h3, h4, h5, h6, h7⟩ := h
  obtain ⟨lk, sv, pa, ra, pb, rb⟩ := st
  simp only [LockInv] at *
  cases w <;> simp only [lockStep, Bool.false_eq_true, if_true, if_false]
  · rcases pb with _ | _ | _ | _ | pb <;> rcases lk with _ | lk <;>
      simp_all <;> omega
  · rcases pa with _ | _ | _ | _ | pa <;> rcases lk with _ | lk <;>
      simp_all <;> omega

theorem lockInv_run (sched : List Bool) : LockInv (lockRun sched) := by
  suffices h : ∀ st, LockInv st → LockInv (sched.foldl lockStep st) from
    h lockInit lockInv_init
  induction sched with
  | nil => exact fun st h => h
  | cons w ws ih => exact fun st h => ih (lockStep st w) (lockInv_step st w h)

theorem revisionAfter_eq (n : Nat) : revisionAfter n = n := by
  induction n with
  | zero => rfl
  | succ n ih => simp [revisionAfter, ih]

theorem hrun_terminal (s : HandleState) (ops : List HandleOp) (s2 : HandleState)
    (hterm : isTerminal s = true) (h : hrun s ops = some s2) :
    s2 = s ∧ ops = [] := by
  cases ops with
  | nil =>
    refine ⟨?_, rfl⟩
    simpa [hrun] using h.symm
  | cons op rest =>
    exfalso
    cases s <;> simp [isTerminal] at hterm <;>
      cases op <;> simp [hrun, hstep] at h

/-! ## Claims -/

/-- C8: a single isolated execution of the add-to-cart handler leaves the
session with a defined cart mapping in which the quantity at the requested
item equals the prior quantity (0 if the cart or the key was absent) plus 1,
every other key is unchanged, and the response's `shoppingCart` equals the
updated cart. -/
theorem claim_C8 (s : SessionData) (item : Item) :
    ∃ c : Cart, (addToCart s item).1.cart = some c ∧
      c item = some (priorQty s item + 1) ∧
      (∀ j : Item, j ≠ item → c j = cartLookup s j) ∧
      (addToCart s item).2.shoppingCart = some c := by
  refine ⟨_, rfl, ?_, ?_, rfl⟩
  · rw [fupdate_same, jsOrZero_eq_getD]
    cases s with
    | mk cart =>
      cases cart <;> simp [priorQty, emptyCart]
  · intro j hj
    rw [fupdate_other _ _ _ _ hj]
    cases s with
    | mk cart =>
      cases cart <;> simp [cartLookup, emptyCart]

/-- Instantiation of C8 at a concrete session and item: adding `mug` to a
fresh session yields quantity 1 for `mug` and leaves `cup` absent. -/
theorem claim_C8_witness :
    ∃ c : Cart, (addToCart emptySession "mug").1.cart = some c ∧
      c "mug" = some (priorQty emptySession "mug" + 1) ∧
      c "cup" = cartLookup emptySession "cup" := by
  obtain ⟨c, h1, h2, h3, h4⟩ := claim_C8 emptySession "mug"
  exact ⟨c, h1, h2, h3 "cup" (by decide)⟩

/-- C9: run as a single isolated request, the delayed add-to-cart handler
computes exactly the same session-state transformation and the same response
as the non-delayed handler — the delay changes only concurrent behaviour. -/
theorem claim_C9 (s : SessionData) (item : Item) :
    addToCartDelayed s item = addToCart s item := by
  cases s with
  | mk cart =>
    cases cart <;> rfl

/-- C3: round-trip — after a completed `POST /add-to-cart`, a `GET /cart` on
the same SessionID returns exactly the committed values: its response equals
the POST's response, and the stored session equals the cart in that
response. -/
theorem claim_C3 (store : Store) (sid : SessionID) (item : Item) :
    (getCart (postAddToCart store sid item).1 sid).2
        = (postAddToCart store sid item).2 ∧
    (postAddToCart store sid item).1 sid
        = some ⟨(postAddToCart store sid item).2.shoppingCart⟩ := by
  constructor
  · simp only [getCart, postAddToCart, fupdate_same, Option.getD_some, addToCart]
  · simp only [postAddToCart, fupdate_same, addToCart]

/-- C4: a read-only access that performs no mutation leaves stored session
state unchanged: `GET /cart` (handled with `resave: false` and
`saveUninitialized: false`, never assigning to the session) leaves the store
byte-for-byte identical, and its response merely reads the loaded
snapshot. -/
theorem claim_C4 (store : Store) (sid : SessionID) :
    (getCart store sid).1 = store ∧
    (getCart store sid).2 = ⟨((store sid).getD emptySession).cart⟩ :=
  ⟨rfl, rfl⟩

/-- C10: `GET /no-sessions` runs outside any session middleware, so
`req.session` is undefined and the handler's `req.session.cart` access raises
a TypeError instead of returning a `shoppingCart`; the route neither reads
nor writes session state (the store is unchanged and the outcome is
independent of it). -/
theorem claim_C10 (store store2 : Store) :
    (getNoSessions store).1 = store ∧
    (getNoSessions store).2 = .error .typeError ∧
    (getNoSessions store).2 = (getNoSessions store2).2 :=
  ⟨rfl, rfl, rfl⟩

/-- C1: under the locking strategy, every interleaving of the two concurrent
ReadWrite increment handlers on the same SessionID in which both handlers
complete leaves the stored counter at 2 — both updates are reflected, never
a merged or overwritten result. -/
theorem claim_C1 (sched : List Bool)
    (hA : (lockRun sched).pcA = 4) (hB : (lockRun sched).pcB = 4) :
    (lockRun sched).stored = 2 := by
  obtain ⟨-, -, -, -, -, -, h7⟩ := lockInv_run sched
  rw [hA, hB] at h7
  simpa using h7

/-- A concrete interleaving on which both locking handlers complete and the
stored counter ends at 2. -/
theorem claim_C1_witness :
    (lockRun [true, true, true, true, false, false, false, false]).pcA = 4 ∧
    (lockRun [true, true, true, true, false, false, false, false]).pcB = 4 ∧
    (lockRun [true, true, true, true, false, false, false, false]).stored = 2 :=
  ⟨by decide, by decide,
    claim_C1 [true, true, true, true, false, false, false, false]
      (by decide) (by decide)⟩

/-- C2: under the optimistic strategy, of two conflicting commits on the
same SessionID (both holding the same reserved Revision), the first to reach
the backend succeeds with the next Revision and the second is rejected with
`ConflictError` while performing no write. -/
theorem claim_C2 (base : VStore) (sid : SessionID) (b0 b1 b2 : SessionData)
    (r : Nat) :
    (commitIfUnchanged (fupdate base sid (some ⟨b0, r⟩)) sid r b1).2
        = .ok (r + 1) ∧
    (commitIfUnchanged
        (commitIfUnchanged (fupdate base sid (some ⟨b0, r⟩)) sid r b1).1
        sid r b2).2 = .error .conflictError ∧
    (commitIfUnchanged
        (commitIfUnchanged (fupdate base sid (some ⟨b0, r⟩)) sid r b1).1
        sid r b2).1
      = (commitIfUnchanged (fupdate base sid (some ⟨b0, r⟩)) sid r b1).1 := by
  have h1 : commitIfUnchanged (fupdate base sid (some ⟨b0, r⟩)) sid r b1
      = (fupdate (fupdate base sid (some ⟨b0, r⟩)) sid (some ⟨b1, r + 1⟩),
         .ok (r + 1)) := by
    rw [commitIfUnchanged, fupdate_same]
    simp
  have h2 : commitIfUnchanged
      (fupdate (fupdate base sid (some ⟨b0, r⟩)) sid (some ⟨b1, r + 1⟩))
      sid r b2
      = (fupdate (fupdate base sid (some ⟨b0, r⟩)) sid (some ⟨b1, r + 1⟩),
         .error .conflictError) := by
    rw [commitIfUnchanged, fupdate_same]
    simp
  rw [h1]
  exact ⟨rfl, by rw [h2], by rw [h2]⟩

/-- C5: the stored Revision is 0 after the first save, each successful
commit replaces Revision `r` by `r + 1` (strictly larger), and over any
sequence of successful commits the Revision strictly increases — no value is
reused or decremented. -/
theorem claim_C5 (base : VStore) (sid : SessionID) (blob bNew : SessionData)
    (vb : VersionedBlob) (n k : Nat) :
    firstSave base sid blob sid = some ⟨blob, 0⟩ ∧
    (commitIfUnchanged (fupdate base sid (some vb)) sid vb.rev bNew).1 sid
        = some ⟨bNew, vb.rev + 1⟩ ∧
    vb.rev < vb.rev + 1 ∧
    revisionAfter 0 = 0 ∧
    revisionAfter n < revisionAfter (n + k + 1) := by
  refine ⟨?_, ?_, Nat.lt_succ_self _, rfl, ?_⟩
  · rw [firstSave, fupdate_same]
  · rw [commitIfUnchanged, fupdate_same]
    simp [fupdate_same]
  · rw [revisionAfter_eq, revisionAfter_eq]
    omega

/-- C6: two increments on the same path commute — applying them in either
order yields the same final granular state — and two increments of
`cart.mug` by 1 from the empty state always yield the stored counter 2. -/
theorem claim_C6 (snap : GSnap) (p : String) (a b : Int) :
    gapply2 snap (.increment p a) (.increment p b)
        = gapply2 snap (.increment p b) (.increment p a) ∧
    gapply2 gempty (.increment "cart.mug" 1) (.increment "cart.mug" 1)
        "cart.mug" = .counter 2 := by
  constructor
  · cases h : snap p with
    | absentVal =>
      simp only [gapply2, gapply, h, fupdate_same, fupdate_idem]
      rw [Int.add_comm]
    | counter m =>
      simp only [gapply2, gapply, h, fupdate_same, fupdate_idem]
      have : m + a + b = m + b + a := by omega
      rw [this]
    | vset s =>
      simp only [gapply2, gapply, h]
  · rfl

/-- C7: every handle follows the state machine `Created →
Acquired(ReadOnly|ReadWrite) → {Committed | Discarded | Expired}`: no
sequence of operations moves a handle out of a terminal state, and every
legal run from `Created` ending in a terminal state consists of exactly one
acquisition followed by exactly one closing operation. -/
theorem claim_C7 :
    (∀ (s : HandleState) (ops : List HandleOp) (s2 : HandleState),
        isTerminal s = true → hrun s ops = some s2 → s2 = s) ∧
    (∀ (ops : List HandleOp) (s2 : HandleState),
        hrun .created ops = some s2 → isTerminal s2 = true →
        ∃ (m : Mode) (c : HandleOp), ops = [.acquireOp m, c] ∧
          hstep (.acquired m) c = some s2) := by
  constructor
  · exact fun s ops s2 ht h => (hrun_terminal s ops s2 ht h).1
  · intro ops s2 hr ht
    cases ops with
    | nil =>
      exfalso
      simp only [hrun, Option.some.injEq] at hr
      rw [← hr] at ht
      simp [isTerminal] at ht
    | cons op1 rest =>
      cases op1 with
      | acquireOp m =>
        simp only [hrun, hstep] at hr
        cases rest with
        | nil =>
          exfalso
          simp only [hrun, Option.some.injEq] at hr
          rw [← hr] at ht
          simp [isTerminal] at ht
        | cons op2 rest2 =>
          cases op2 with
          | acquireOp m2 =>
            exfalso
            simp only [hrun, hstep] at hr
            exact Option.noConfusion hr
          | commitOp =>
            simp only [hrun, hstep] at hr
            obtain ⟨hs2, hops⟩ := hrun_terminal .committed rest2 s2 rfl hr
            exact ⟨m, .commitOp, by simp [hops], by simp [hstep, hs2]⟩
          | discardOp =>
            simp only [hrun, hstep] at hr
            obtain ⟨hs2, hops⟩ := hrun_terminal .discarded rest2 s2 rfl hr
            exact ⟨m, .discardOp, by simp [hops], by simp [hstep, hs2]⟩
          | expireOp =>
            simp only [hrun, hstep] at hr
            obtain ⟨hs2, hops⟩ := hrun_terminal .expired rest2 s2 rfl hr
            exact ⟨m, .expireOp, by simp [hops], by simp [hstep, hs2]⟩
      | commitOp => exact absurd hr (by simp [hrun, hstep])
      | discardOp => exact absurd hr (by simp [hrun, hstep])
      | expireOp => exact absurd hr (by simp [hrun, hstep])

/-- Instantiation of C7 at concrete runs: the terminal state `Committed`
stays put under the empty run, and the run `acquire(ReadWrite); commit`
reaches `Committed` via exactly one acquisition and one closing
operation. -/
theorem claim_C7_witness :
    HandleState.committed = HandleState.committed ∧
    ∃ (m : Mode) (c : HandleOp),
      [HandleOp.acquireOp .readWrite, HandleOp.commitOp] = [.acquireOp m, c] ∧
      hstep (.acquired m) c = some .committed :=
  ⟨claim_C7.1 .committed [] .committed (by decide) rfl,
   claim_C7.2 [.acquireOp .readWrite, .commitOp] .committed rfl (by decide)⟩

end Sessions
